import Mathlib

/-!
Verification development for the pygame-utils tweening core
(`pygame_utils/tween.py`, `pygame_utils/easing.py`).

The Python source is embedded shallowly:

* Python numbers are modelled as `Int` (Python `int`) and `Rat`
  (Python `float`, modelled exactly as rational arithmetic);
* `int(x)` truncation toward zero is `pyInt`;
* Python slice semantics `b[:n]` (negative bounds count from the end,
  out-of-range bounds clamp) is `pySliceTo`;
* the dynamic dispatch of `lerp` over the runtime type of its first
  argument is a match over the `Value` variant type;
* the `Tween` class becomes a state record with one Lean function per
  method; every method that reads the wall clock (`now()`) takes the
  current timestamp (milliseconds, as a rational) as an explicit
  argument, matching the "deterministic given the time sequence"
  contract of the module;
* of the `Events` collaborator the tween observes only how many times
  each of its two events was triggered and whether `events.reset()`
  severed the listeners; that slice is `EventsModel`.
-/

namespace PygameUtils

/-- The runtime shapes `tween.lerp` dispatches on: Python `int`, `float`
(modelled as rationals), `list`, `tuple` and `str`. -/
inductive Value where
  | vint : Int → Value
  | vfloat : Rat → Value
  | vlist : List Value → Value
  | vtuple : List Value → Value
  | vstr : List Char → Value

mutual

/-- Boolean equality on `Value` (structural). -/
def Value.beq : Value → Value → Bool
  | .vint a, .vint b => a == b
  | .vfloat a, .vfloat b => a == b
  | .vlist xs, .vlist ys => Value.beqList xs ys
  | .vtuple xs, .vtuple ys => Value.beqList xs ys
  | .vstr a, .vstr b => a == b
  | _, _ => false
termination_by structural a _ => a

/-- Pointwise boolean equality on lists of values. -/
def Value.beqList : List Value → List Value → Bool
  | [], [] => true
  | x :: xs, y :: ys => Value.beq x y && Value.beqList xs ys
  | _, _ => false
termination_by structural xs _ => xs

end

mutual

theorem Value.eq_of_beq : ∀ a b : Value, Value.beq a b = true → a = b
  | .vint a, .vint b, h => by
      have hab : a = b := by simpa [Value.beq] using h
      rw [hab]
  | .vfloat a, .vfloat b, h => by
      have hab : a = b := by simpa [Value.beq] using h
      rw [hab]
  | .vstr a, .vstr b, h => by
      have hab : a = b := by simpa [Value.beq] using h
      rw [hab]
  | .vlist xs, .vlist ys, h => by
      have hab : xs = ys :=
        Value.eqList_of_beqList xs ys (by simpa [Value.beq] using h)
      rw [hab]
  | .vtuple xs, .vtuple ys, h => by
      have hab : xs = ys :=
        Value.eqList_of_beqList xs ys (by simpa [Value.beq] using h)
      rw [hab]
  | .vint _, .vfloat _, h => by simp [Value.beq] at h
  | .vint _, .vlist _, h => by simp [Value.beq] at h
  | .vint _, .vtuple _, h => by simp [Value.beq] at h
  | .vint _, .vstr _, h => by simp [Value.beq] at h
  | .vfloat _, .vint _, h => by simp [Value.beq] at h
  | .vfloat _, .vlist _, h => by simp [Value.beq] at h
  | .vfloat _, .vtuple _, h => by simp [Value.beq] at h
  | .vfloat _, .vstr _, h => by simp [Value.beq] at h
  | .vlist _, .vint _, h => by simp [Value.beq] at h
  | .vlist _, .vfloat _, h => by simp [Value.beq] at h
  | .vlist _, .vtuple _, h => by simp [Value.beq] at h
  | .vlist _, .vstr _, h => by simp [Value.beq] at h
  | .vtuple _, .vint _, h => by simp [Value.beq] at h
  | .vtuple _, .vfloat _, h => by simp [Value.beq] at h
  | .vtuple _, .vlist _, h => by simp [Value.beq] at h
  | .vtuple _, .vstr _, h => by simp [Value.beq] at h
  | .vstr _, .vint _, h => by simp [Value.beq] at h
  | .vstr _, .vfloat _, h => by simp [Value.beq] at h
  | .vstr _, .vlist _, h => by simp [Value.beq] at h
  | .vstr _, .vtuple _, h => by simp [Value.beq] at h

theorem Value.eqList_of_beqList : ∀ xs ys : List Value, Value.beqList xs ys = true → xs = ys
  | [], [], _ => rfl
  | x :: xs, y :: ys, h => by
      have h1 : Value.beq x y = true ∧ Value.beqList xs ys = true := by
        simpa [Value.beqList, Bool.and_eq_true] using h
      rw [Value.eq_of_beq x y h1.1, Value.eqList_of_beqList xs ys h1.2]
  | [], _ :: _, h => by simp [Value.beqList] at h
  | _ :: _, [], h => by simp [Value.beqList] at h

end

mutual

theorem Value.beq_self : ∀ a : Value, Value.beq a a = true
  | .vint a => by simp [Value.beq]
  | .vfloat a => by simp [Value.beq]
  | .vstr a => by simp [Value.beq]
  | .vlist xs => by simpa [Value.beq] using Value.beqList_self xs
  | .vtuple xs => by simpa [Value.beq] using Value.beqList_self xs

theorem Value.beqList_self : ∀ xs : List Value, Value.beqList xs xs = true
  | [] => rfl
  | x :: xs => by
      simp [Value.beqList, Bool.and_eq_true]
      exact ⟨Value.beq_self x, Value.beqList_self xs⟩

end

instance : DecidableEq Value := fun a b =>
  if h : Value.beq a b = true then isTrue (Value.eq_of_beq a b h)
  else isFalse (fun hh => h (hh ▸ Value.beq_self a))

/-- Python `int()` applied to a (rational) float: truncation toward zero. -/
def pyInt (q : Rat) : Int :=
  if 0 ≤ q then ⌊q⌋ else ⌈q⌉

/-- Python slice `s[:n]`: a negative bound counts from the end (clamped at
zero), a bound past the end yields the whole string. -/
def pySliceTo (s : List Char) (n : Int) : List Char :=
  if n < 0 then s.take (s.length + n).toNat else s.take n.toNat

mutual

/-- Embeds `tween.lerp(a, b, value)`.  The source dispatches on `type(a)`:
lists and tuples recurse element-wise over `zip(a, b)` (which truncates to
the shorter operand), `int` truncates the scaled delta toward zero via
`int(...)`, `float` interpolates directly, `str` returns a prefix slice of
`b` whose length is the scaled length difference, and every other type
returns `b` unchanged.  The mixed numeric cases mirror Python numeric
coercion; constructor pairs that would raise `TypeError` in the source
(e.g. a string against a list) are not exercised by any claim and fall to
the final `b` case. -/
def lerp : Value → Value → Rat → Value
  | .vlist xs, .vlist ys, v => .vlist (lerpList xs ys v)
  | .vlist xs, .vtuple ys, v => .vlist (lerpList xs ys v)
  | .vtuple xs, .vtuple ys, v => .vtuple (lerpList xs ys v)
  | .vtuple xs, .vlist ys, v => .vtuple (lerpList xs ys v)
  | .vint a, .vint b, v => .vint (a + pyInt ((((b - a : Int) : Rat)) * v))
  | .vint a, .vfloat b, v => .vint (a + pyInt ((b - (a : Rat)) * v))
  | .vfloat a, .vfloat b, v => .vfloat (a + (b - a) * v)
  | .vfloat a, .vint b, v => .vfloat (a + ((b : Rat) - a) * v)
  | .vstr a, .vstr b, v =>
      .vstr (pySliceTo b (pyInt ((((b.length : Int) - (a.length : Int) : Int) : Rat) * v)))
  | _, b, _ => b
termination_by structural a _ _ => a

/-- The element-wise recursion of `lerp` over `zip(a, b)`. -/
def lerpList : List Value → List Value → Rat → List Value
  | x :: xs, y :: ys, v => lerp x y v :: lerpList xs ys v
  | _, _, _ => []
termination_by structural xs _ _ => xs

end

mutual

/-- Both values have the same numeric shape: matching numeric scalar
constructors, or the same sequence constructor with pointwise same numeric
shapes (hence equal length).  This is the "numeric-scalar or equal-length
sequence" shape family of the specification. -/
def sameNumShape : Value → Value → Bool
  | .vint _, .vint _ => true
  | .vfloat _, .vfloat _ => true
  | .vlist xs, .vlist ys => sameNumShapeList xs ys
  | .vtuple xs, .vtuple ys => sameNumShapeList xs ys
  | _, _ => false
termination_by structural a _ => a

/-- Pointwise `sameNumShape` over two lists of equal length. -/
def sameNumShapeList : List Value → List Value → Bool
  | [], [] => true
  | x :: xs, y :: ys => sameNumShape x y && sameNumShapeList xs ys
  | _, _ => false
termination_by structural xs _ => xs

end

/-- The per-animation parameters (`TweenProps`).  The source stores an easing
name and resolves it through `get_tween` on every `update` call; the machine
here carries the resolved normalized curve directly, as a rational-valued
function (name resolution itself is verified separately on the easing
library).  The source field `repeat` is a Lean keyword and is rendered
`repeat_count`. -/
structure TweenProps where
  from_value : Value
  to_value : Value
  duration : Rat
  easing : Rat → Rat
  repeat_count : Int
  pingpong : Int

/-- The slice of the `Events` collaborator that the tween observes: how many
times each of the two tween events has been triggered, and whether
`events.reset()` has severed the listeners (the deliberate side effect of
`Tween.stop`). -/
structure EventsModel where
  update_fired : Nat
  complete_fired : Nat
  listeners_cleared : Bool

/-- The mutable state of one `Tween` instance: the fields assigned in
`Tween.__init__` / `Tween.reset`.  `pingpong` is the completed-reversal
counter, `count` the completed-repeat counter. -/
structure Tween where
  props : TweenProps
  value : Value
  events : EventsModel
  start_time : Rat
  time : Rat
  is_paused : Bool
  pause_duration : Rat
  paused_at : Rat
  is_running : Bool
  is_completed : Bool
  direction : Int
  pingpong : Int
  count : Int

/-- `Tween.reset`: reset clocks and lifecycle flags.  `ts` is the value
`now()` returns during the call. -/
def Tween.reset (ts : Rat) (s : Tween) : Tween :=
  { s with start_time := ts, time := 0, is_paused := false, pause_duration := 0,
           paused_at := 0, is_running := false, is_completed := false }

/-- `Tween.start`: mark running and restart the cycle clock. -/
def Tween.start (ts : Rat) (s : Tween) : Tween :=
  { s with is_running := true, start_time := ts }

/-- `Tween.stop`: halt if running, then clear all event listeners. -/
def Tween.stop (s : Tween) : Tween :=
  let s := if s.is_running then { s with is_running := false } else s
  { s with events := { s.events with listeners_cleared := true } }

/-- `Tween.flip`: invert the direction sign. -/
def Tween.flip (s : Tween) : Tween :=
  { s with direction := s.direction * (-1) }

/-- `Tween.restart`: reset, snap the value to the endpoint the current
direction starts from, and start again. -/
def Tween.restart (ts : Rat) (s : Tween) : Tween :=
  let s := Tween.reset ts s
  let s := { s with value := if s.direction = 1 then s.props.from_value else s.props.to_value }
  Tween.start ts s

/-- `Tween.pause`: record the pause timestamp (no-op when already paused). -/
def Tween.pause (ts : Rat) (s : Tween) : Tween :=
  if s.is_paused then s else { s with is_paused := true, paused_at := ts }

/-- `Tween.unpause`: accumulate the paused interval (no-op when not paused). -/
def Tween.unpause (ts : Rat) (s : Tween) : Tween :=
  if s.is_paused then
    { s with is_paused := false,
             pause_duration := s.pause_duration + (ts - s.paused_at),
             paused_at := 0 }
  else s

/-- `Tween.complete`: fire a final update event, fire the complete event,
mark completed, and stop (which severs the listeners). -/
def Tween.complete (s : Tween) : Tween :=
  let s := { s with events := { s.events with update_fired := s.events.update_fired + 1 } }
  let s := { s with events := { s.events with complete_fired := s.events.complete_fired + 1 } }
  let s := { s with is_completed := true }
  Tween.stop s

/-- The repeat-handling tail of `Tween.done`: increment the repeat counter,
then complete, restart forever, restart while below the configured count, or
complete. -/
def Tween.doneRepeat (ts : Rat) (s : Tween) : Tween :=
  let s := { s with count := s.count + 1 }
  if s.props.repeat_count = 0 then Tween.complete s
  else if s.props.repeat_count = -1 then Tween.restart ts s
  else if s.count < s.props.repeat_count then Tween.restart ts s
  else Tween.complete s

/-- `Tween.done`: cycle-boundary handling.  Snap the value to `to_value`;
if ping-pong is configured, run the outbound flip (forward direction) or the
reversal bookkeeping (reverse direction), either restarting immediately or
falling through to repeat handling. -/
def Tween.done (ts : Rat) (s : Tween) : Tween :=
  let s := { s with value := s.props.to_value }
  if s.props.pingpong ≠ 0 then
    if s.direction = 1 then
      Tween.restart ts (Tween.flip s)
    else
      let s := { s with pingpong := s.pingpong + 1 }
      if s.pingpong < s.props.pingpong ∨ s.props.pingpong = -1 then
        Tween.restart ts (Tween.flip s)
      else
        let s := { s with value := s.props.from_value }
        let s := Tween.flip s
        let s := { s with pingpong := 0 }
        Tween.doneRepeat ts s
  else
    Tween.doneRepeat ts s

/-- `Tween.update`: one frame step at wall-clock time `ts` (milliseconds).
Early-out when paused, completed or not running; otherwise compute the
clamped elapsed fraction, apply direction and easing, interpolate, fire the
update event, and run `done` once the fraction reaches 1. -/
def Tween.update (ts : Rat) (s : Tween) : Tween :=
  if s.is_paused then s
  else if s.is_completed then s
  else if s.is_running = false then s
  else
    let dt := (ts - s.start_time - s.pause_duration) / 1000
    let s := { s with time := max 0 (min 1 (dt / s.props.duration)) }
    let tween_time := if s.direction = 1 then s.time else 1 - s.time
    let tween_value := s.props.easing tween_time
    let s := { s with value := lerp s.props.from_value s.props.to_value tween_value }
    let s := { s with events := { s.events with update_fired := s.events.update_fired + 1 } }
    if s.time ≥ 1 then Tween.done ts s else s

/-- `Tween.__init__` at wall-clock time `ts`: store the props, set the value
to `from_value`, create the event registry (with the constructor callbacks
attached), reset, initialize direction and both counters, and start when
`auto_start` is set. -/
def Tween.init (ts : Rat) (fromv tov : Value) (duration : Rat) (easing : Rat → Rat)
    (repeat_count pingpong : Int) (auto_start : Bool) : Tween :=
  let s : Tween :=
    { props := ⟨fromv, tov, duration, easing, repeat_count, pingpong⟩,
      value := fromv,
      events := ⟨0, 0, false⟩,
      start_time := ts, time := 0, is_paused := false, pause_duration := 0,
      paused_at := 0, is_running := false, is_completed := false,
      direction := 1, pingpong := 0, count := 0 }
  if auto_start then Tween.start ts s else s

/-- The public operations of the tween state machine. -/
inductive TweenOp where
  | start
  | stop
  | restart
  | pause
  | unpause
  | flip
  | update
  deriving DecidableEq

/-- Dispatch one public operation invoked at wall-clock time `ts`. -/
def Tween.step (op : TweenOp) (ts : Rat) (s : Tween) : Tween :=
  match op with
  | .start => Tween.start ts s
  | .stop => Tween.stop s
  | .restart => Tween.restart ts s
  | .pause => Tween.pause ts s
  | .unpause => Tween.unpause ts s
  | .flip => Tween.flip s
  | .update => Tween.update ts s

/-- Run a timestamped sequence of public operations. -/
def Tween.run (s : Tween) (ops : List (TweenOp × Rat)) : Tween :=
  ops.foldl (fun s p => Tween.step p.1 p.2 s) s

/-- Drive a tween with `repeat_count = N` by one `update` exactly at each
cycle boundary: the tween is constructed at time 0 and the k-th cycle of
duration `d` seconds ends at wall-clock time `k * 1000 * d` milliseconds. -/
def runCycles (fromv tov : Value) (d : Rat) (e : Rat → Rat) (N : Nat) : Nat → Tween
  | 0 => Tween.init 0 fromv tov d e (N : Int) 0 true
  | k + 1 => Tween.update (((k + 1 : Nat) : Rat) * (1000 * d)) (runCycles fromv tov d e N k)

/-- The canonical state of a repeat-`N` tween right after `k` completed
cycles (each of which restarted the clock), while more cycles remain. -/
def cycleState (fromv tov : Value) (d : Rat) (e : Rat → Rat) (N : Nat) (k : Nat) : Tween :=
  { props := ⟨fromv, tov, d, e, (N : Int), 0⟩,
    value := fromv,
    events := ⟨k, 0, false⟩,
    start_time := (k : Rat) * (1000 * d), time := 0, is_paused := false,
    pause_duration := 0, paused_at := 0, is_running := true, is_completed := false,
    direction := 1, pingpong := 0, count := (k : Int) }

theorem runCycles_zero (fromv tov : Value) (d : Rat) (e : Rat → Rat) (N : Nat) :
    runCycles fromv tov d e N 0 = cycleState fromv tov d e N 0 := by
  simp [runCycles, cycleState, Tween.init, Tween.start]

theorem update_cycleState_of_lt (fromv tov : Value) (d : Rat) (e : Rat → Rat) (N : Nat)
    (k : Nat) (hd : d ≠ 0) (hk : k + 1 < N) :
    Tween.update (((k + 1 : Nat) : Rat) * (1000 * d)) (cycleState fromv tov d e N k)
      = cycleState fromv tov d e N (k + 1) := by
  have h1 : ((((k : Nat) + 1 : Nat) : Rat) * (1000 * d) - (k : Rat) * (1000 * d) - 0) / 1000 / d
      = 1 := by
    push_cast
    field_simp
    ring
  have hN0 : ¬ ((N : Int) = 0) := by omega
  have hN1 : ¬ ((N : Int) = -1) := by omega
  have hcount : ((k : Int) + 1 < (N : Int)) := by exact_mod_cast hk
  have h2 : (((k : Rat) + 1) * (1000 * d) - (k : Rat) * (1000 * d)) / 1000 / d = 1 := by
    field_simp
    ring
  simp only [Tween.update, cycleState, Tween.done, Tween.doneRepeat, Tween.restart,
    Tween.reset, Tween.start, Tween.flip, Tween.complete, Tween.stop]
  norm_num [h1, h2, hN0, hN1, hcount]

theorem update_cycleState_last (fromv tov : Value) (d : Rat) (e : Rat → Rat) (k : Nat)
    (hd : d ≠ 0) :
    (Tween.update (((k + 1 : Nat) : Rat) * (1000 * d))
        (cycleState fromv tov d e (k + 1) k)).is_completed = true
    ∧ (Tween.update (((k + 1 : Nat) : Rat) * (1000 * d))
        (cycleState fromv tov d e (k + 1) k)).events.complete_fired = 1 := by
  have h2 : (((k : Rat) + 1) * (1000 * d) - (k : Rat) * (1000 * d)) / 1000 / d = 1 := by
    field_simp
    ring
  have hN0 : ¬ ((k : Int) + 1 = 0) := by omega
  have hN1 : ¬ ((k : Int) + 1 = -1) := by omega
  have hcount : ¬ ((k : Int) + 1 < (k : Int) + 1) := by omega
  simp only [Tween.update, cycleState, Tween.done, Tween.doneRepeat, Tween.restart,
    Tween.reset, Tween.start, Tween.flip, Tween.complete, Tween.stop]
  norm_num [h2, hN0, hN1, hcount]

theorem runCycles_eq_cycleState (fromv tov : Value) (d : Rat) (e : Rat → Rat) (N : Nat)
    (hd : d ≠ 0) :
    ∀ k, k < N → runCycles fromv tov d e N k = cycleState fromv tov d e N k := by
  intro k
  induction k with
  | zero => intro _; exact runCycles_zero fromv tov d e N
  | succ k ih =>
      intro h
      have hk : k < N := Nat.lt_of_succ_lt h
      rw [runCycles, ih hk]
      exact update_cycleState_of_lt fromv tov d e N k hd h

/-- C1, amended: a Tween with `repeatCount = N > 0` runs `N` total cycles
(restarting `N - 1` additional times after the first cycle), stays
uncompleted with no complete event fired while any cycle remains, and the
terminal completion fires the `"complete"` event exactly once, right when
the `N`-th cycle finishes.  In particular `repeat=2` means two total runs,
with `"complete"` fired after the second cycle and never after the first. -/
theorem c1_repeat_runs_n_total_cycles (fromv tov : Value) (d : Rat) (e : Rat → Rat)
    (N : Nat) (hd : d ≠ 0) (hN : 1 ≤ N) :
    (∀ k, k < N → (runCycles fromv tov d e N k).is_completed = false
        ∧ (runCycles fromv tov d e N k).events.complete_fired = 0
        ∧ (runCycles fromv tov d e N k).count = (k : Int))
    ∧ (runCycles fromv tov d e N N).is_completed = true
    ∧ (runCycles fromv tov d e N N).events.complete_fired = 1 := by
  refine ⟨fun k hk => ?_, ?_⟩
  · rw [runCycles_eq_cycleState fromv tov d e N hd k hk]
    simp [cycleState]
  · obtain ⟨m, rfl⟩ : ∃ m, N = m + 1 := ⟨N - 1, by omega⟩
    rw [runCycles, runCycles_eq_cycleState fromv tov d e (m + 1) hd m (by omega)]
    exact update_cycleState_last fromv tov d e m hd

/-- The C1 witness trace: `repeat=2`, duration 1 s, constructed at time 0,
updated at the two cycle boundaries 1000 ms and 2000 ms. -/
def c1_trace : Tween :=
  Tween.update 2000 (Tween.update 1000 (Tween.init 0 (.vint 0) (.vint 100) 1 (fun t => t) 2 0 true))

/-- C1, counterexample: the claim predicts that a `repeat=2` tween restarts
twice after its first cycle (three total cycles) and fires `"complete"` only
after the third cycle.  In the code, after just two cycle boundaries the
tween has run exactly two cycles (`count = 2`), is already terminally
completed, and has fired `"complete"` once — there is no third cycle. -/
theorem c1_counterexample :
    c1_trace.is_completed = true ∧ c1_trace.events.complete_fired = 1
      ∧ c1_trace.count = 2 := by
  norm_num [c1_trace, Tween.init, Tween.start, Tween.update, Tween.done, Tween.doneRepeat,
    Tween.restart, Tween.reset, Tween.complete, Tween.stop, Tween.flip, min_def, max_def]

/-- A `pingpong=1`, `repeat=1` tween constructed at time 0 and updated at
its first cycle boundary `1000 d` ms (the forward, outbound leg). -/
def c8_u1 (fromv tov : Value) (d : Rat) (e : Rat → Rat) : Tween :=
  Tween.update (1000 * d) (Tween.init 0 fromv tov d e 1 1 true)

/-- The same tween after the second cycle boundary `2000 d` ms (the reverse
leg, completing one full forward+reverse ping-pong pair). -/
def c8_u2 (fromv tov : Value) (d : Rat) (e : Rat → Rat) : Tween :=
  Tween.update (2000 * d) (c8_u1 fromv tov d e)

theorem c8_u1_eq (fromv tov : Value) (d : Rat) (e : Rat → Rat) (hd : d ≠ 0) :
    c8_u1 fromv tov d e =
      { props := ⟨fromv, tov, d, e, 1, 1⟩, value := tov, events := ⟨1, 0, false⟩,
        start_time := 1000 * d, time := 0, is_paused := false, pause_duration := 0,
        paused_at := 0, is_running := true, is_completed := false, direction := -1,
        pingpong := 0, count := 0 } := by
  have h1 : (1000 * d - 0 - 0) / 1000 / d = 1 := by
    field_simp
  have h2 : (1000 * d - 0) / 1000 / d = 1 := by
    field_simp
  simp only [c8_u1, Tween.init, Tween.update, Tween.done, Tween.doneRepeat, Tween.restart,
    Tween.reset, Tween.start, Tween.flip, Tween.complete, Tween.stop]
  norm_num [h1, h2, div_self hd]

theorem c8_u2_facts (fromv tov : Value) (d : Rat) (e : Rat → Rat) (hd : d ≠ 0) :
    (c8_u2 fromv tov d e).value = fromv
    ∧ (c8_u2 fromv tov d e).pingpong = 0
    ∧ (c8_u2 fromv tov d e).direction = 1 := by
  have h1 : (2000 * d - 1000 * d - 0) / 1000 / d = 1 := by
    field_simp
    ring
  have h2 : (2000 * d - 1000 * d) / 1000 / d = 1 := by
    field_simp
    ring
  rw [c8_u2, c8_u1_eq fromv tov d e hd]
  simp only [Tween.update, Tween.done, Tween.doneRepeat, Tween.restart,
    Tween.reset, Tween.start, Tween.flip, Tween.complete, Tween.stop]
  norm_num [h1, h2, div_self hd]

/-- C8: for a tween configured with `pingpong = 1`, the forward (outbound)
cycle-boundary handling never increments the repeat counter (it flips and
restarts before the repeat logic runs), and after one full forward+reverse
pair driven by one update per cycle boundary the value has been snapped back
to `from_value`, the ping-pong counter has been reset to 0, and the
direction is forward again. -/
theorem c8_pingpong_pair (fromv tov : Value) (d : Rat) (e : Rat → Rat) (ts : Rat)
    (s : Tween) (hd : d ≠ 0) (hpp : s.props.pingpong = 1) (hdir : s.direction = 1) :
    (Tween.done ts s).count = s.count
    ∧ (c8_u1 fromv tov d e).count = 0
    ∧ (c8_u1 fromv tov d e).events.complete_fired = 0
    ∧ (c8_u2 fromv tov d e).value = fromv
    ∧ (c8_u2 fromv tov d e).pingpong = 0
    ∧ (c8_u2 fromv tov d e).direction = 1 := by
  have hu2 := c8_u2_facts fromv tov d e hd
  refine ⟨?_, ?_, ?_, hu2.1, hu2.2.1, hu2.2.2⟩
  · simp [Tween.done, Tween.restart, Tween.reset, Tween.start, Tween.flip, hpp, hdir]
  · rw [c8_u1_eq fromv tov d e hd]
  · rw [c8_u1_eq fromv tov d e hd]

/-- Witness for `c8_pingpong_pair`: endpoints `7` and `9`, duration 1 s,
identity easing, with the freshly constructed tween as the forward-direction
state for the first conjunct. -/
theorem c8_pingpong_pair_witness :
    (1 : Rat) ≠ 0
    ∧ (Tween.init 0 (.vint 7) (.vint 9) 1 (fun t => t) 1 1 true).props.pingpong = 1
    ∧ (Tween.init 0 (.vint 7) (.vint 9) 1 (fun t => t) 1 1 true).direction = 1
    ∧ ((Tween.done 0 (Tween.init 0 (.vint 7) (.vint 9) 1 (fun t => t) 1 1 true)).count
        = (Tween.init 0 (.vint 7) (.vint 9) 1 (fun t => t) 1 1 true).count
      ∧ (c8_u1 (.vint 7) (.vint 9) 1 (fun t => t)).count = 0
      ∧ (c8_u1 (.vint 7) (.vint 9) 1 (fun t => t)).events.complete_fired = 0
      ∧ (c8_u2 (.vint 7) (.vint 9) 1 (fun t => t)).value = .vint 7
      ∧ (c8_u2 (.vint 7) (.vint 9) 1 (fun t => t)).pingpong = 0
      ∧ (c8_u2 (.vint 7) (.vint 9) 1 (fun t => t)).direction = 1) := by
  refine ⟨by norm_num, by norm_num [Tween.init, Tween.start],
    by norm_num [Tween.init, Tween.start], ?_⟩
  exact c8_pingpong_pair (.vint 7) (.vint 9) 1 (fun t => t) 0
    (Tween.init 0 (.vint 7) (.vint 9) 1 (fun t => t) 1 1 true) (by norm_num)
    (by norm_num [Tween.init, Tween.start]) (by norm_num [Tween.init, Tween.start])

/-- The specified tween lifecycle invariant: a completed tween is not
running. -/
def TweenInv (s : Tween) : Prop :=
  s.is_completed = true → s.is_running = false

theorem stop_not_running (s : Tween) : (Tween.stop s).is_running = false := by
  simp only [Tween.stop]
  split <;> simp_all

theorem stop_is_completed (s : Tween) : (Tween.stop s).is_completed = s.is_completed := by
  simp only [Tween.stop]
  split <;> simp_all

theorem complete_not_running (s : Tween) : (Tween.complete s).is_running = false :=
  stop_not_running _

theorem restart_not_completed (ts : Rat) (s : Tween) :
    (Tween.restart ts s).is_completed = false := by
  simp [Tween.restart, Tween.reset, Tween.start]

theorem done_inv (ts : Rat) (s : Tween) : TweenInv (Tween.done ts s) := by
  intro hc
  simp only [Tween.done, Tween.doneRepeat] at hc ⊢
  split_ifs at hc ⊢ <;>
    simp_all [restart_not_completed, complete_not_running, stop_is_completed,
      stop_not_running, Tween.complete]

theorem update_inv (ts : Rat) (s : Tween) (h : TweenInv s) : TweenInv (Tween.update ts s) := by
  simp only [Tween.update]
  split_ifs <;>
    first
      | exact h
      | exact done_inv ts _

/-- C5, amended: the invariant `completed → not running` holds at
construction and is preserved by every public operation except a bare
`start()` issued on an already-completed tween (the minimal exclusion the
counterexample forces: `start` sets the running flag without clearing the
completed flag); and the completed flag survives every public operation
other than `restart()`, which is therefore the only exit from the completed
state. -/
theorem c5_invariant_amended :
    (∀ (ts : Rat) (fromv tov : Value) (d : Rat) (e : Rat → Rat) (r p : Int) (a : Bool),
        TweenInv (Tween.init ts fromv tov d e r p a))
    ∧ (∀ (s : Tween) (op : TweenOp) (ts : Rat),
        (op = TweenOp.start → s.is_completed = false) → TweenInv s →
          TweenInv (Tween.step op ts s))
    ∧ (∀ (s : Tween) (op : TweenOp) (ts : Rat),
        op ≠ TweenOp.restart → s.is_completed = true →
          (Tween.step op ts s).is_completed = true) := by
  refine ⟨?_, ?_, ?_⟩
  · intro ts fromv tov d e r p a hc
    simp only [Tween.init, Tween.start] at hc
    split_ifs at hc
  · intro s op ts hstart h
    cases op with
    | start =>
        intro hc
        have := hstart rfl
        simp_all [Tween.step, Tween.start]
    | stop => intro _; exact stop_not_running s
    | restart =>
        intro hc
        rw [Tween.step, restart_not_completed] at hc
        cases hc
    | pause =>
        intro hc
        simp only [Tween.step, Tween.pause] at hc ⊢
        split_ifs at hc ⊢ <;> simp_all [TweenInv]
    | unpause =>
        intro hc
        simp only [Tween.step, Tween.unpause] at hc ⊢
        split_ifs at hc ⊢ <;> simp_all [TweenInv]
    | flip =>
        intro hc
        simp only [Tween.step, Tween.flip] at hc ⊢
        exact h hc
    | update => exact update_inv ts s h
  · intro s op ts hop hc
    cases op with
    | start => simp_all [Tween.step, Tween.start]
    | stop => rw [Tween.step, stop_is_completed]; exact hc
    | restart => exact absurd rfl hop
    | pause =>
        simp only [Tween.step, Tween.pause]
        split_ifs <;> simp_all
    | unpause =>
        simp only [Tween.step, Tween.unpause]
        split_ifs <;> simp_all
    | flip => simp_all [Tween.step, Tween.flip]
    | update => simp_all [Tween.step, Tween.update]

/-- A terminally completed tween: `repeat=1`, constructed at time 0 and
updated once past its duration. -/
def c5_completed : Tween :=
  Tween.update 1000 (Tween.init 0 (.vint 0) (.vint 100) 1 (fun t => t) 1 0 true)

/-- The C5 counterexample trace: construct a `repeat=1` tween at time 0,
update past the duration at 1000 ms (terminal completion), then call
`start()` at 1001 ms. -/
def c5_trace : Tween :=
  Tween.run (Tween.init 0 (.vint 0) (.vint 100) 1 (fun t => t) 1 0 true)
    [(TweenOp.update, 1000), (TweenOp.start, 1001)]

/-- C5, counterexample: the claimed invariant quantifies over every sequence
of the public operations including `start`; after completing and then
calling `start()`, the tween is simultaneously completed and running, so the
invariant fails on a reachable state. -/
theorem c5_counterexample :
    c5_trace.is_completed = true ∧ c5_trace.is_running = true := by
  norm_num [c5_trace, Tween.run, Tween.step, Tween.init, Tween.start, Tween.update,
    Tween.done, Tween.doneRepeat, Tween.restart, Tween.reset, Tween.complete,
    Tween.stop, Tween.flip, min_def, max_def]

/-- Witness for `c5_invariant_amended`: the init clause at concrete
arguments, the preservation clause for a `stop` at a concrete completed
state, and the completed-persistence clause for a `flip` there. -/
theorem c5_invariant_amended_witness :
    TweenInv (Tween.init 0 (.vint 0) (.vint 1) 1 (fun t => t) 1 0 true)
    ∧ TweenInv (Tween.step TweenOp.stop 5 c5_completed)
    ∧ (Tween.step TweenOp.flip 5 c5_completed).is_completed = true := by
  refine ⟨c5_invariant_amended.1 0 (.vint 0) (.vint 1) 1 (fun t => t) 1 0 true,
    c5_invariant_amended.2.1 c5_completed TweenOp.stop 5 (fun h => by cases h) ?_,
    c5_invariant_amended.2.2 c5_completed TweenOp.flip 5 (fun h => by cases h) ?_⟩
  · intro hc
    norm_num [c5_completed, Tween.init, Tween.start, Tween.update, Tween.done,
      Tween.doneRepeat, Tween.restart, Tween.reset, Tween.complete, Tween.stop,
      Tween.flip, min_def, max_def]
  · norm_num [c5_completed, Tween.init, Tween.start, Tween.update, Tween.done,
      Tween.doneRepeat, Tween.restart, Tween.reset, Tween.complete, Tween.stop,
      Tween.flip, min_def, max_def]

/-- Witness for `c1_repeat_runs_n_total_cycles` at `N = 2`, `d = 1`,
easing the identity, endpoints `0` and `100`. -/
theorem c1_repeat_runs_n_total_cycles_witness :
    (1 : Rat) ≠ 0 ∧ 1 ≤ 2
    ∧ ((runCycles (.vint 0) (.vint 100) 1 (fun t => t) 2 1).is_completed = false
        ∧ (runCycles (.vint 0) (.vint 100) 1 (fun t => t) 2 1).events.complete_fired = 0
        ∧ (runCycles (.vint 0) (.vint 100) 1 (fun t => t) 2 1).count = (1 : Int))
    ∧ (runCycles (.vint 0) (.vint 100) 1 (fun t => t) 2 2).is_completed = true
    ∧ (runCycles (.vint 0) (.vint 100) 1 (fun t => t) 2 2).events.complete_fired = 1 := by
  have h := c1_repeat_runs_n_total_cycles (.vint 0) (.vint 100) 1 (fun t => t) 2
    (by norm_num) (by norm_num)
  exact ⟨by norm_num, by norm_num, h.1 1 (by norm_num), h.2.1, h.2.2⟩

/-- The `Tweens` manager: an insertion-ordered list of owned tweens. -/
structure Tweens where
  tweens : List Tween

/-- The loop of `Tweens.stop`: while the list is nonempty, pop the last
tween and stop it.  Popping every element from the end in turn is the same
as consuming the reversed list from the front, which is how the loop is
rendered structurally here; the first argument is the not-yet-popped
suffix in pop order, the accumulator collects the popped tweens after
stopping, in pop order.  The loop always drains the list, so the remaining
collection is returned empty. -/
def Tweens.stopLoop : List Tween → List Tween → List Tween × List Tween
  | [], acc => ([], acc)
  | t :: rest, acc => Tweens.stopLoop rest (acc ++ [Tween.stop t])

/-- `Tweens.stop`: pop-and-stop every owned tween. -/
def Tweens.stop (c : Tweens) : Tweens × List Tween :=
  let r := Tweens.stopLoop c.tweens.reverse []
  (⟨r.1⟩, r.2)

/-- `Tweens.reset`: delegates to `Tweens.stop`. -/
def Tweens.reset (c : Tweens) : Tweens × List Tween :=
  Tweens.stop c

/-- `Tweens.pause`: broadcast `pause` to all owned tweens, retaining them. -/
def Tweens.pause (ts : Rat) (c : Tweens) : Tweens :=
  ⟨c.tweens.map (Tween.pause ts)⟩

/-- `Tweens.unpause`: broadcast `unpause` to all owned tweens, retaining
them. -/
def Tweens.unpause (ts : Rat) (c : Tweens) : Tweens :=
  ⟨c.tweens.map (Tween.unpause ts)⟩

theorem stopLoop_spec : ∀ l acc, Tweens.stopLoop l acc = ([], acc ++ l.map Tween.stop) := by
  intro l
  induction l with
  | nil => intro acc; simp [Tweens.stopLoop]
  | cons t rest ih =>
      intro acc
      rw [Tweens.stopLoop, ih]
      simp

/-- C10: `Tweens.stop` leaves the collection empty (releasing ownership of
every tween) while stopping each of them, popped in reverse insertion
order; `Tweens.reset` delegates to `stop`; by contrast `pause`/`unpause`
broadcast while retaining every owned tween. -/
theorem c10_stop_empties_collection (c : Tweens) (ts : Rat) :
    (Tweens.stop c).1.tweens = []
    ∧ (Tweens.stop c).2 = c.tweens.reverse.map Tween.stop
    ∧ (∀ t, t ∈ (Tweens.stop c).2 → t.is_running = false)
    ∧ Tweens.reset c = Tweens.stop c
    ∧ (Tweens.pause ts c).tweens.length = c.tweens.length
    ∧ (Tweens.unpause ts c).tweens.length = c.tweens.length := by
  refine ⟨?_, ?_, ?_, rfl, by simp [Tweens.pause], by simp [Tweens.unpause]⟩
  · simp [Tweens.stop, stopLoop_spec]
  · simp [Tweens.stop, stopLoop_spec]
  · intro t ht
    simp only [Tweens.stop, stopLoop_spec, List.nil_append, List.mem_map] at ht
    obtain ⟨u, _, rfl⟩ := ht
    exact stop_not_running u

/-- A concrete owned tween for the C10 witness. -/
def c10_tw : Tween :=
  Tween.init 0 (.vint 0) (.vint 1) 1 (fun t => t) 1 0 true

/-- Witness for `c10_stop_empties_collection` on a one-element collection. -/
theorem c10_stop_empties_collection_witness :
    (Tweens.stop ⟨[c10_tw]⟩).1.tweens = []
    ∧ (Tweens.stop ⟨[c10_tw]⟩).2 = [Tween.stop c10_tw]
    ∧ (Tween.stop c10_tw).is_running = false
    ∧ Tweens.reset ⟨[c10_tw]⟩ = Tweens.stop ⟨[c10_tw]⟩
    ∧ (Tweens.pause 3 ⟨[c10_tw]⟩).tweens.length = 1
    ∧ (Tweens.unpause 3 ⟨[c10_tw]⟩).tweens.length = 1 := by
  have h := c10_stop_empties_collection ⟨[c10_tw]⟩ 3
  refine ⟨h.1, by rw [h.2.1]; simp, ?_, h.2.2.2.1,
    by rw [h.2.2.2.2.1]; rfl, by rw [h.2.2.2.2.2]; rfl⟩
  exact h.2.2.1 (Tween.stop c10_tw) (by rw [h.2.1]; simp)

/-- The state of the closure inside `TweenGroup.on`: the `tweens_fired` set
(modelled as its list of distinct elements) and how many times the group
callback has been invoked.  The source adds `id(kwargs)` — the address of
the current call's argument tuple, an environment-chosen number that in no
way identifies the tween that fired. -/
structure GroupRelay where
  tweens_fired : List Nat
  callback_calls : Nat

/-- One invocation of the relay `on_tween_fire` in a group over `n` tweens:
add the argument-tuple id to the set; if the set size now equals `n`, invoke
the group callback. -/
def on_tween_fire (n : Nat) (argId : Nat) (st : GroupRelay) : GroupRelay :=
  let fired := if argId ∈ st.tweens_fired then st.tweens_fired else argId :: st.tweens_fired
  if fired.length = n then ⟨fired, st.callback_calls + 1⟩
  else ⟨fired, st.callback_calls⟩

/-- Run the relay of a group over `n` tweens on a sequence of event
deliveries, each given by the id of its argument tuple. -/
def groupRelayRun (n : Nat) (fires : List Nat) : GroupRelay :=
  fires.foldl (fun st a => on_tween_fire n a st) ⟨[], 0⟩

/-- C2, code bug: in a group over two tweens, two deliveries of the event
from the *same* tween (argument tuples at distinct addresses 10 and 11)
already invoke the group callback, because the relay tracks `id(kwargs)`
of the call rather than the tween that fired (first conjunct); and the
tracking set is never reset, so a complete second occurrence (two further
deliveries, ids 20 and 21) never fires the callback again even though the
claim requires exactly one callback per occurrence (second conjunct). -/
theorem c2_group_relay_code_bug :
    (groupRelayRun 2 [10, 11]).callback_calls = 1
    ∧ (groupRelayRun 2 [10, 11, 20, 21]).callback_calls = 1 := by
  constructor <;> rfl

theorem pyInt_zero : pyInt 0 = 0 := by
  simp [pyInt]

theorem pyInt_intCast (n : Int) : pyInt (n : Rat) = n := by
  unfold pyInt
  split <;> simp

mutual

theorem lerp_zero : ∀ (a b : Value), sameNumShape a b = true → lerp a b 0 = a
  | .vint x, .vint y, _ => by simp [lerp, pyInt_zero]
  | .vfloat x, .vfloat y, _ => by simp [lerp]
  | .vlist xs, .vlist ys, h => by
      have h1 : sameNumShapeList xs ys = true := by simpa [sameNumShape] using h
      show Value.vlist (lerpList xs ys 0) = Value.vlist xs
      rw [lerpList_zero xs ys h1]
  | .vtuple xs, .vtuple ys, h => by
      have h1 : sameNumShapeList xs ys = true := by simpa [sameNumShape] using h
      show Value.vtuple (lerpList xs ys 0) = Value.vtuple xs
      rw [lerpList_zero xs ys h1]
  | .vint _, .vfloat _, h => by simp [sameNumShape] at h
  | .vint _, .vlist _, h => by simp [sameNumShape] at h
  | .vint _, .vtuple _, h => by simp [sameNumShape] at h
  | .vint _, .vstr _, h => by simp [sameNumShape] at h
  | .vfloat _, .vint _, h => by simp [sameNumShape] at h
  | .vfloat _, .vlist _, h => by simp [sameNumShape] at h
  | .vfloat _, .vtuple _, h => by simp [sameNumShape] at h
  | .vfloat _, .vstr _, h => by simp [sameNumShape] at h
  | .vlist _, .vint _, h => by simp [sameNumShape] at h
  | .vlist _, .vfloat _, h => by simp [sameNumShape] at h
  | .vlist _, .vtuple _, h => by simp [sameNumShape] at h
  | .vlist _, .vstr _, h => by simp [sameNumShape] at h
  | .vtuple _, .vint _, h => by simp [sameNumShape] at h
  | .vtuple _, .vfloat _, h => by simp [sameNumShape] at h
  | .vtuple _, .vlist _, h => by simp [sameNumShape] at h
  | .vtuple _, .vstr _, h => by simp [sameNumShape] at h
  | .vstr _, .vint _, h => by simp [sameNumShape] at h
  | .vstr _, .vfloat _, h => by simp [sameNumShape] at h
  | .vstr _, .vlist _, h => by simp [sameNumShape] at h
  | .vstr _, .vtuple _, h => by simp [sameNumShape] at h
  | .vstr _, .vstr _, h => by simp [sameNumShape] at h

theorem lerpList_zero : ∀ xs ys : List Value, sameNumShapeList xs ys = true → lerpList xs ys 0 = xs
  | [], [], _ => rfl
  | x :: xs, y :: ys, h => by
      have h1 : sameNumShape x y = true ∧ sameNumShapeList xs ys = true := by
        simpa [sameNumShapeList, Bool.and_eq_true] using h
      show lerp x y 0 :: lerpList xs ys 0 = x :: xs
      rw [lerp_zero x y h1.1, lerpList_zero xs ys h1.2]
  | [], _ :: _, h => by simp [sameNumShapeList] at h
  | _ :: _, [], h => by simp [sameNumShapeList] at h

end

mutual

theorem lerp_one : ∀ (a b : Value), sameNumShape a b = true → lerp a b 1 = b
  | .vint x, .vint y, _ => by
      show Value.vint (x + pyInt (((y - x : Int) : Rat) * 1)) = Value.vint y
      rw [mul_one, pyInt_intCast]
      simp only [Value.vint.injEq]
      omega
  | .vfloat x, .vfloat y, _ => by simp [lerp]
  | .vlist xs, .vlist ys, h => by
      have h1 : sameNumShapeList xs ys = true := by simpa [sameNumShape] using h
      show Value.vlist (lerpList xs ys 1) = Value.vlist ys
      rw [lerpList_one xs ys h1]
  | .vtuple xs, .vtuple ys, h => by
      have h1 : sameNumShapeList xs ys = true := by simpa [sameNumShape] using h
      show Value.vtuple (lerpList xs ys 1) = Value.vtuple ys
      rw [lerpList_one xs ys h1]
  | .vint _, .vfloat _, h => by simp [sameNumShape] at h
  | .vint _, .vlist _, h => by simp [sameNumShape] at h
  | .vint _, .vtuple _, h => by simp [sameNumShape] at h
  | .vint _, .vstr _, h => by simp [sameNumShape] at h
  | .vfloat _, .vint _, h => by simp [sameNumShape] at h
  | .vfloat _, .vlist _, h => by simp [sameNumShape] at h
  | .vfloat _, .vtuple _, h => by simp [sameNumShape] at h
  | .vfloat _, .vstr _, h => by simp [sameNumShape] at h
  | .vlist _, .vint _, h => by simp [sameNumShape] at h
  | .vlist _, .vfloat _, h => by simp [sameNumShape] at h
  | .vlist _, .vtuple _, h => by simp [sameNumShape] at h
  | .vlist _, .vstr _, h => by simp [sameNumShape] at h
  | .vtuple _, .vint _, h => by simp [sameNumShape] at h
  | .vtuple _, .vfloat _, h => by simp [sameNumShape] at h
  | .vtuple _, .vlist _, h => by simp [sameNumShape] at h
  | .vtuple _, .vstr _, h => by simp [sameNumShape] at h
  | .vstr _, .vint _, h => by simp [sameNumShape] at h
  | .vstr _, .vfloat _, h => by simp [sameNumShape] at h
  | .vstr _, .vlist _, h => by simp [sameNumShape] at h
  | .vstr _, .vtuple _, h => by simp [sameNumShape] at h
  | .vstr _, .vstr _, h => by simp [sameNumShape] at h

theorem lerpList_one : ∀ xs ys : List Value, sameNumShapeList xs ys = true → lerpList xs ys 1 = ys
  | [], [], _ => rfl
  | x :: xs, y :: ys, h => by
      have h1 : sameNumShape x y = true ∧ sameNumShapeList xs ys = true := by
        simpa [sameNumShapeList, Bool.and_eq_true] using h
      show lerp x y 1 :: lerpList xs ys 1 = y :: ys
      rw [lerp_one x y h1.1, lerpList_one xs ys h1.2]
  | [], _ :: _, h => by simp [sameNumShapeList] at h
  | _ :: _, [], h => by simp [sameNumShapeList] at h

end

mutual

theorem lerp_self : ∀ (a : Value) (v : Rat), sameNumShape a a = true → lerp a a v = a
  | .vint x, v, _ => by simp [lerp, pyInt_zero]
  | .vfloat x, v, _ => by simp [lerp]
  | .vlist xs, v, h => by
      have h1 : sameNumShapeList xs xs = true := by simpa [sameNumShape] using h
      show Value.vlist (lerpList xs xs v) = Value.vlist xs
      rw [lerpList_self xs v h1]
  | .vtuple xs, v, h => by
      have h1 : sameNumShapeList xs xs = true := by simpa [sameNumShape] using h
      show Value.vtuple (lerpList xs xs v) = Value.vtuple xs
      rw [lerpList_self xs v h1]
  | .vstr _, v, h => by simp [sameNumShape] at h

theorem lerpList_self : ∀ (xs : List Value) (v : Rat),
    sameNumShapeList xs xs = true → lerpList xs xs v = xs
  | [], _, _ => rfl
  | x :: xs, v, h => by
      have h1 : sameNumShape x x = true ∧ sameNumShapeList xs xs = true := by
        simpa [sameNumShapeList, Bool.and_eq_true] using h
      show lerp x x v :: lerpList xs xs v = x :: xs
      rw [lerp_self x v h1.1, lerpList_self xs v h1.2]

end

/-- C7: on matching numeric-scalar shapes and equal-length (possibly
nested) sequence shapes over them, `lerp` hits its endpoints exactly:
`lerp a b 0 = a` and `lerp a b 1 = b`. -/
theorem c7_lerp_endpoints (a b : Value) (h : sameNumShape a b = true) :
    lerp a b 0 = a ∧ lerp a b 1 = b :=
  ⟨lerp_zero a b h, lerp_one a b h⟩

/-- Witness for `c7_lerp_endpoints` on a mixed list of an `int` and a
`float`. -/
theorem c7_lerp_endpoints_witness :
    sameNumShape (.vlist [.vint 1, .vfloat 0]) (.vlist [.vint 5, .vfloat (3/2)]) = true
    ∧ (lerp (.vlist [.vint 1, .vfloat 0]) (.vlist [.vint 5, .vfloat (3/2)]) 0
        = .vlist [.vint 1, .vfloat 0]
      ∧ lerp (.vlist [.vint 1, .vfloat 0]) (.vlist [.vint 5, .vfloat (3/2)]) 1
        = .vlist [.vint 5, .vfloat (3/2)]) :=
  ⟨rfl, c7_lerp_endpoints _ _ rfl⟩

/-- C6, counterexample: the claim extends `lerp(a, a, x) == a` to strings,
but on equal strings the source computes a zero length difference and
returns `b[:0]`, the empty string: `lerp("a", "a", 0)` is `""`, not
`"a"`. -/
theorem c6_counterexample :
    lerp (.vstr ['a']) (.vstr ['a']) 0 ≠ .vstr ['a'] := by
  simp [lerp, pySliceTo, pyInt_zero]

/-- C6, amended: `lerp(a, a, x) == a` holds for numeric scalars and
(nested) equal-shape sequences of them, for every fraction `x`; on strings
the result is instead always the empty string, since the length difference
is zero. -/
theorem c6_lerp_self_amended (a : Value) (s : List Char) (x y : Rat)
    (h : sameNumShape a a = true) :
    lerp a a x = a ∧ lerp (.vstr s) (.vstr s) y = .vstr [] := by
  refine ⟨lerp_self a x h, ?_⟩
  simp [lerp, pySliceTo, pyInt_zero]

/-- Witness for `c6_lerp_self_amended` on a nested numeric value and the
one-character string. -/
theorem c6_lerp_self_amended_witness :
    sameNumShape (.vlist [.vint 2, .vtuple [.vfloat 1]]) (.vlist [.vint 2, .vtuple [.vfloat 1]]) = true
    ∧ (lerp (.vlist [.vint 2, .vtuple [.vfloat 1]]) (.vlist [.vint 2, .vtuple [.vfloat 1]]) (1/3)
        = .vlist [.vint 2, .vtuple [.vfloat 1]]
      ∧ lerp (.vstr ['a']) (.vstr ['a']) 2 = .vstr []) :=
  ⟨rfl, c6_lerp_self_amended _ ['a'] (1/3) 2 rfl⟩

/-- The string rule exactly as claim C4 words it: return the first `N`
characters of the end string, where `N` is the end length minus the scaled
length difference. -/
def lerpStrClaim (a b : List Char) (x : Rat) : List Char :=
  pySliceTo b ((b.length : Int) - pyInt ((((b.length : Int) - (a.length : Int) : Int) : Rat) * x))

/-- The string rule as amended: the first `N` characters of the end string
under Python slice semantics (zero and negative bounds included), where `N`
is the length difference `len(b) - len(a)` scaled by the fraction and
truncated toward zero — not the end length minus that quantity. -/
def lerpStrAmended (a b : List Char) (x : Rat) : List Char :=
  pySliceTo b (pyInt ((((b.length : Int) - (a.length : Int) : Int) : Rat) * x))

/-- C4, counterexample: at `a = ""`, `b = "ab"`, `x = 1` the source returns
`b[:int((2 - 0) * 1)] = "ab"`, while the claimed formula yields
`N = 2 - 2 = 0`, i.e. the empty string. -/
theorem c4_counterexample :
    lerp (.vstr []) (.vstr ['a', 'b']) 1 = .vstr ['a', 'b']
    ∧ lerpStrClaim [] ['a', 'b'] 1 = []
    ∧ lerp (.vstr []) (.vstr ['a', 'b']) 1 ≠ .vstr (lerpStrClaim [] ['a', 'b'] 1) := by
  refine ⟨?_, ?_, ?_⟩
  · norm_num [lerp, pySliceTo, pyInt]
  · norm_num [lerpStrClaim, pySliceTo, pyInt]
  · norm_num [lerp, lerpStrClaim, pySliceTo, pyInt]
    simp

/-- C4, amended: for all strings and fractions, the source `lerp` returns
the prefix of the end string cut at the scaled length difference
`int((len(b) - len(a)) * x)` (truncated toward zero, under Python slice
semantics for zero or negative bounds). -/
theorem c4_lerp_str_amended (a b : List Char) (x : Rat) :
    lerp (.vstr a) (.vstr b) x = .vstr (lerpStrAmended a b x) := rfl

noncomputable section

/-! The easing library (`pygame_utils/easing.py`), embedded over the real
numbers.  Every curve keeps the classical `(t, b, c, d)` signature of the
source: current time, start value, change in value, duration.  The elastic
curves additionally take the optional amplitude/period arguments as
`Option` values. -/

namespace EasingFunctions

/-- Linear easing: `c*t/d + b`. -/
def linear (t b c d : Real) : Real := c * t / d + b

/-- Quadratic ease-in. -/
def ease_in_quad (t b c d : Real) : Real :=
  let t := t / d
  c * t * t + b

/-- Quadratic ease-out. -/
def ease_out_quad (t b c d : Real) : Real :=
  let t := t / d;
  -c * (t * (t - 2)) + b

/-- Quadratic ease-in-out. -/
def ease_in_out_quad (t b c d : Real) : Real :=
  let t := t / (d / 2)
  if t < 1 then c / 2 * t * t + b
  else
    let t := t - 1;
    -c / 2 * (t * (t - 2) - 1) + b

/-- Cubic ease-in. -/
def ease_in_cubic (t b c d : Real) : Real :=
  let t := t / d
  c * t * t * t + b

/-- Cubic ease-out. -/
def ease_out_cubic (t b c d : Real) : Real :=
  let t := t / d
  let t := t - 1
  c * (t * t * t + 1) + b

/-- Cubic ease-in-out. -/
def ease_in_out_cubic (t b c d : Real) : Real :=
  let t := t / (d / 2)
  if t < 1 then c / 2 * t * t * t + b
  else
    let t := t - 2
    c / 2 * (t * t * t + 2) + b

/-- Quartic ease-in. -/
def ease_in_quart (t b c d : Real) : Real :=
  let t := t / d
  c * t * t * t * t + b

/-- Quartic ease-out. -/
def ease_out_quart (t b c d : Real) : Real :=
  let t := t / d
  let t := t - 1;
  -c * (t * t * t * t - 1) + b

/-- Quartic ease-in-out. -/
def ease_in_out_quart (t b c d : Real) : Real :=
  let t := t / (d / 2)
  if t < 1 then c / 2 * t * t * t * t + b
  else
    let t := t - 2;
    -c / 2 * (t * t * t * t - 2) + b

/-- Quintic ease-in. -/
def ease_in_quint (t b c d : Real) : Real :=
  let t := t / d
  c * t * t * t * t * t + b

/-- Quintic ease-out. -/
def ease_out_quint (t b c d : Real) : Real :=
  let t := t / d
  let t := t - 1
  c * (t * t * t * t * t + 1) + b

/-- Quintic ease-in-out. -/
def ease_in_out_quint (t b c d : Real) : Real :=
  let t := t / (d / 2)
  if t < 1 then c / 2 * t * t * t * t * t + b
  else
    let t := t - 2
    c / 2 * (t * t * t * t * t + 2) + b

/-- Sine ease-in. -/
def ease_in_sine (t b c d : Real) : Real :=
  -c * Real.cos (t / d * (Real.pi / 2)) + c + b

/-- Sine ease-out. -/
def ease_out_sine (t b c d : Real) : Real :=
  c * Real.sin (t / d * (Real.pi / 2)) + b

/-- Sine ease-in-out. -/
def ease_in_out_sine (t b c d : Real) : Real :=
  -c / 2 * (Real.cos (Real.pi * t / d) - 1) + b

/-- Exponential ease-in: `c * 2^(10*(t/d - 1)) + b`, with no special case
at `t = 0`. -/
def ease_in_expo (t b c d : Real) : Real :=
  c * (2 : Real) ^ (10 * (t / d - 1)) + b

/-- Exponential ease-out: `c * (-2^(-10*t/d) + 1) + b`, with no special
case at `t = d`. -/
def ease_out_expo (t b c d : Real) : Real :=
  c * (-(2 : Real) ^ (-10 * t / d) + 1) + b

/-- Exponential ease-in-out. -/
def ease_in_out_expo (t b c d : Real) : Real :=
  let t := t / (d / 2)
  if t < 1 then c / 2 * (2 : Real) ^ (10 * (t - 1)) + b
  else
    let t := t - 1
    c / 2 * (-(2 : Real) ^ (-10 * t) + 2) + b

/-- Circular ease-in. -/
def ease_in_circ (t b c d : Real) : Real :=
  let t := t / d;
  -c * (Real.sqrt (1 - t * t) - 1) + b

/-- Circular ease-out. -/
def ease_out_circ (t b c d : Real) : Real :=
  let t := t / d
  let t := t - 1
  c * Real.sqrt (1 - t * t) + b

/-- Circular ease-in-out. -/
def ease_in_out_circ (t b c d : Real) : Real :=
  let t := t / (d / 2)
  if t < 1 then -c / 2 * (Real.sqrt (1 - t * t) - 1) + b
  else
    let t := t - 2
    c / 2 * (Real.sqrt (1 - t * t) + 1) + b

/-- Python truthiness for the optional period argument of the elastic
curves (`if not p: p = default`): `None` and `0.0` fall back. -/
def pickPeriod (p : Option Real) (dflt : Real) : Real :=
  match p with
  | none => dflt
  | some p0 => if p0 = 0 then dflt else p0

/-- The amplitude/phase selection of the elastic curves
(`if not a or a < abs(c): a = c; s = p/4 else: s = p/(2 pi) * asin(c/a)`),
with Python truthiness on the optional amplitude. -/
def pickAmpPhase (a : Option Real) (c p : Real) : Real × Real :=
  match a with
  | none => (c, p / 4)
  | some a0 =>
      if a0 = 0 ∨ a0 < |c| then (c, p / 4)
      else (a0, p / (2 * Real.pi) * Real.arcsin (c / a0))

/-- Elastic ease-in, with the explicit `t == 0` / `t == 1` special cases. -/
def ease_in_elastic (t b c d : Real) (a p : Option Real) : Real :=
  if t = 0 then b
  else
    let t := t / d
    if t = 1 then b + c
    else
      let p := pickPeriod p (d * 0.3)
      let ap := pickAmpPhase a c p
      let t := t - 1;
      -(ap.1 * (2 : Real) ^ (10 * t) * Real.sin ((t * d - ap.2) * (2 * Real.pi) / p)) + b

/-- Elastic ease-out, with the explicit `t == 0` / `t == 1` special cases. -/
def ease_out_elastic (t b c d : Real) (a p : Option Real) : Real :=
  if t = 0 then b
  else
    let t := t / d
    if t = 1 then b + c
    else
      let p := pickPeriod p (d * 0.3)
      let ap := pickAmpPhase a c p
      ap.1 * (2 : Real) ^ (-10 * t) * Real.sin ((t * d - ap.2) * (2 * Real.pi) / p) + c + b

/-- Elastic ease-in-out, with the explicit `t == 0` / `t == 2` special
cases (after rescaling to `t / (d/2)`). -/
def ease_in_out_elastic (t b c d : Real) (a p : Option Real) : Real :=
  if t = 0 then b
  else
    let t := t / (d / 2)
    if t = 2 then b + c
    else
      let p := pickPeriod p (d * (0.3 * 1.5))
      let ap := pickAmpPhase a c p
      if t < 1 then
        let t := t - 1;
        -0.5 * (ap.1 * (2 : Real) ^ (10 * t) * Real.sin ((t * d - ap.2) * (2 * Real.pi) / p)) + b
      else
        let t := t - 1
        ap.1 * (2 : Real) ^ (-10 * t) * Real.sin ((t * d - ap.2) * (2 * Real.pi) / p) * 0.5 + c + b

end EasingFunctions

/-- `tween._normalize_easing`: wrap a classical-signature curve so it maps
normalized time through `(t, 0, 1, 1)`. -/
def normalize_easing (f : Real → Real → Real → Real → Real) : Real → Real :=
  fun t => f t 0 1 1

/-- `tween.tween_functions_lookup`: the fixed name-to-curve table, in source
order.  The elastic entries are the source functions with their optional
amplitude/period arguments left at their `None` defaults. -/
def tween_functions_lookup : List (String × (Real → Real)) :=
  [("linear", normalize_easing EasingFunctions.linear),
   ("easeInQuad", normalize_easing EasingFunctions.ease_in_quad),
   ("easeOutQuad", normalize_easing EasingFunctions.ease_out_quad),
   ("easeInOutQuad", normalize_easing EasingFunctions.ease_in_out_quad),
   ("easeInCubic", normalize_easing EasingFunctions.ease_in_cubic),
   ("easeOutCubic", normalize_easing EasingFunctions.ease_out_cubic),
   ("easeInOutCubic", normalize_easing EasingFunctions.ease_in_out_cubic),
   ("easeInQuart", normalize_easing EasingFunctions.ease_in_quart),
   ("easeOutQuart", normalize_easing EasingFunctions.ease_out_quart),
   ("easeInOutQuart", normalize_easing EasingFunctions.ease_in_out_quart),
   ("easeInQuint", normalize_easing EasingFunctions.ease_in_quint),
   ("easeOutQuint", normalize_easing EasingFunctions.ease_out_quint),
   ("easeInOutQuint", normalize_easing EasingFunctions.ease_in_out_quint),
   ("easeInSine", normalize_easing EasingFunctions.ease_in_sine),
   ("easeOutSine", normalize_easing EasingFunctions.ease_out_sine),
   ("easeInOutSine", normalize_easing EasingFunctions.ease_in_out_sine),
   ("easeInExpo", normalize_easing EasingFunctions.ease_in_expo),
   ("easeOutExpo", normalize_easing EasingFunctions.ease_out_expo),
   ("easeInOutExpo", normalize_easing EasingFunctions.ease_in_out_expo),
   ("easeInCirc", normalize_easing EasingFunctions.ease_in_circ),
   ("easeOutCirc", normalize_easing EasingFunctions.ease_out_circ),
   ("easeInOutCirc", normalize_easing EasingFunctions.ease_in_out_circ),
   ("easeInElastic",
     normalize_easing (fun t b c d => EasingFunctions.ease_in_elastic t b c d none none)),
   ("easeOutElastic",
     normalize_easing (fun t b c d => EasingFunctions.ease_out_elastic t b c d none none)),
   ("easeInOutElastic",
     normalize_easing (fun t b c d => EasingFunctions.ease_in_out_elastic t b c d none none))]

/-- `tween.get_tween`: resolve an easing curve by name, falling back to the
linear entry of the table for unknown names. -/
def get_tween (name : String) : Real → Real :=
  match tween_functions_lookup.lookup name with
  | some f => f
  | none => normalize_easing EasingFunctions.linear

end

theorem lookup_eq_none_of_not_mem_keys {beta : Type} :
    ∀ (l : List (String × beta)) (name : String),
      name ∉ l.map Prod.fst → l.lookup name = none := by
  intro l
  induction l with
  | nil => intro name _; rfl
  | cons x xs ih =>
      intro name h
      simp only [List.map_cons, List.mem_cons, not_or] at h
      have hne : (name == x.1) = false := by
        simpa using h.1
      simpa [List.lookup, hne] using ih name h.2

/-- C9: `get_tween` returns the curve registered under each of the fixed
names, and falls back to the linear curve — without signaling any error —
for every name outside the table. -/
theorem c9_get_tween_soft_fallback :
    (∀ p, p ∈ tween_functions_lookup → get_tween p.1 = p.2)
    ∧ (∀ name : String, name ∉ tween_functions_lookup.map Prod.fst →
        get_tween name = normalize_easing EasingFunctions.linear) := by
  constructor
  · intro p hp
    fin_cases hp <;> rfl
  · intro name h
    rw [get_tween, lookup_eq_none_of_not_mem_keys tween_functions_lookup name h]

/-- Witness for `c9_get_tween_soft_fallback`: a registered name resolves to
its curve; the unregistered name `"bogus"` resolves to the linear curve. -/
theorem c9_get_tween_soft_fallback_witness :
    ("easeInQuad", normalize_easing EasingFunctions.ease_in_quad) ∈ tween_functions_lookup
    ∧ get_tween "easeInQuad" = normalize_easing EasingFunctions.ease_in_quad
    ∧ "bogus" ∉ tween_functions_lookup.map Prod.fst
    ∧ get_tween "bogus" = normalize_easing EasingFunctions.linear := by
  have hmem : ("easeInQuad", normalize_easing EasingFunctions.ease_in_quad)
      ∈ tween_functions_lookup := by
    rw [tween_functions_lookup]
    exact List.mem_cons_of_mem _ (List.mem_cons_self _ _)
  have hnot : "bogus" ∉ tween_functions_lookup.map Prod.fst := by
    rw [tween_functions_lookup]
    simp
  exact ⟨hmem, c9_get_tween_soft_fallback.1 _ hmem, hnot,
    c9_get_tween_soft_fallback.2 "bogus" hnot⟩

/-- The boundary property of a curve in normalized form: the curve
evaluated with `(t, 0, 1, 1)` maps 0 to 0 and 1 to 1. -/
def normBoundary (f : Real → Real → Real → Real → Real) : Prop :=
  normalize_easing f 0 = 0 ∧ normalize_easing f 1 = 1

theorem two_rpow_neg_ten : (2 : Real) ^ (-10 : Real) = 1 / 1024 := by
  rw [show (-10 : Real) = ((-10 : Int) : Real) by norm_num, Real.rpow_intCast]
  norm_num

/-- C3, counterexample: the claim asserts `f(0) == 0` within floating
tolerance for every non-elastic curve, but the normalized exponential
ease-in evaluates at 0 to exactly `2^(-10) = 1/1024 ≈ 0.000977`, a fixed
offset far above any floating tolerance, and in particular not 0. -/
theorem c3_expo_counterexample :
    normalize_easing EasingFunctions.ease_in_expo 0 = 1 / 1024
    ∧ normalize_easing EasingFunctions.ease_in_expo 0 ≠ 0 := by
  have h0 : normalize_easing EasingFunctions.ease_in_expo 0 = (2 : Real) ^ (-10 : Real) := by
    rw [normalize_easing, EasingFunctions.ease_in_expo]
    norm_num
  rw [h0, two_rpow_neg_ten]
  norm_num

/-- C3, amended: every named curve except the exponential family satisfies
`f(0) = 0` and `f(1) = 1` exactly in normalized form — the elastic curves
through their explicit `t==0`/`t==1` (`t==2` for in-out) special cases —
while the exponential curves miss one or both boundaries by an exact
`2^(-10)`-scale offset: `easeInExpo(0) = 2^(-10)`, `easeOutExpo(1) =
1 - 2^(-10)`, `easeInOutExpo(0) = 2^(-11)` and `easeInOutExpo(1) =
1 - 2^(-11)` (their other boundaries are exact). -/
theorem c3_boundaries_amended :
    normBoundary EasingFunctions.linear
    ∧ normBoundary EasingFunctions.ease_in_quad
    ∧ normBoundary EasingFunctions.ease_out_quad
    ∧ normBoundary EasingFunctions.ease_in_out_quad
    ∧ normBoundary EasingFunctions.ease_in_cubic
    ∧ normBoundary EasingFunctions.ease_out_cubic
    ∧ normBoundary EasingFunctions.ease_in_out_cubic
    ∧ normBoundary EasingFunctions.ease_in_quart
    ∧ normBoundary EasingFunctions.ease_out_quart
    ∧ normBoundary EasingFunctions.ease_in_out_quart
    ∧ normBoundary EasingFunctions.ease_in_quint
    ∧ normBoundary EasingFunctions.ease_out_quint
    ∧ normBoundary EasingFunctions.ease_in_out_quint
    ∧ normBoundary EasingFunctions.ease_in_sine
    ∧ normBoundary EasingFunctions.ease_out_sine
    ∧ normBoundary EasingFunctions.ease_in_out_sine
    ∧ normBoundary EasingFunctions.ease_in_circ
    ∧ normBoundary EasingFunctions.ease_out_circ
    ∧ normBoundary EasingFunctions.ease_in_out_circ
    ∧ normBoundary (fun t b c d => EasingFunctions.ease_in_elastic t b c d none none)
    ∧ normBoundary (fun t b c d => EasingFunctions.ease_out_elastic t b c d none none)
    ∧ normBoundary (fun t b c d => EasingFunctions.ease_in_out_elastic t b c d none none)
    ∧ normalize_easing EasingFunctions.ease_in_expo 0 = 1 / 1024
    ∧ normalize_easing EasingFunctions.ease_in_expo 1 = 1
    ∧ normalize_easing EasingFunctions.ease_out_expo 0 = 0
    ∧ normalize_easing EasingFunctions.ease_out_expo 1 = 1023 / 1024
    ∧ normalize_easing EasingFunctions.ease_in_out_expo 0 = 1 / 2048
    ∧ normalize_easing EasingFunctions.ease_in_out_expo 1 = 2047 / 2048 := by
  refine ⟨?_, ?_, ?_, ?_, ?_, ?_, ?_, ?_, ?_, ?_, ?_, ?_, ?_, ?_, ?_, ?_, ?_, ?_, ?_, ?_, ?_, ?_, ?_, ?_, ?_, ?_, ?_, ?_⟩
  · constructor <;> norm_num [normBoundary, normalize_easing, Real.cos_zero, Real.sin_zero, Real.cos_pi_div_two, Real.sin_pi_div_two, Real.cos_pi, Real.sqrt_one, Real.sqrt_zero, Real.rpow_zero, EasingFunctions.linear]
  · constructor <;> norm_num [normBoundary, normalize_easing, Real.cos_zero, Real.sin_zero, Real.cos_pi_div_two, Real.sin_pi_div_two, Real.cos_pi, Real.sqrt_one, Real.sqrt_zero, Real.rpow_zero, EasingFunctions.ease_in_quad]
  · constructor <;> norm_num [normBoundary, normalize_easing, Real.cos_zero, Real.sin_zero, Real.cos_pi_div_two, Real.sin_pi_div_two, Real.cos_pi, Real.sqrt_one, Real.sqrt_zero, Real.rpow_zero, EasingFunctions.ease_out_quad]
  · constructor <;> norm_num [normBoundary, normalize_easing, Real.cos_zero, Real.sin_zero, Real.cos_pi_div_two, Real.sin_pi_div_two, Real.cos_pi, Real.sqrt_one, Real.sqrt_zero, Real.rpow_zero, EasingFunctions.ease_in_out_quad]
  · constructor <;> norm_num [normBoundary, normalize_easing, Real.cos_zero, Real.sin_zero, Real.cos_pi_div_two, Real.sin_pi_div_two, Real.cos_pi, Real.sqrt_one, Real.sqrt_zero, Real.rpow_zero, EasingFunctions.ease_in_cubic]
  · constructor <;> norm_num [normBoundary, normalize_easing, Real.cos_zero, Real.sin_zero, Real.cos_pi_div_two, Real.sin_pi_div_two, Real.cos_pi, Real.sqrt_one, Real.sqrt_zero, Real.rpow_zero, EasingFunctions.ease_out_cubic]
  · constructor <;> norm_num [normBoundary, normalize_easing, Real.cos_zero, Real.sin_zero, Real.cos_pi_div_two, Real.sin_pi_div_two, Real.cos_pi, Real.sqrt_one, Real.sqrt_zero, Real.rpow_zero, EasingFunctions.ease_in_out_cubic]
  · constructor <;> norm_num [normBoundary, normalize_easing, Real.cos_zero, Real.sin_zero, Real.cos_pi_div_two, Real.sin_pi_div_two, Real.cos_pi, Real.sqrt_one, Real.sqrt_zero, Real.rpow_zero, EasingFunctions.ease_in_quart]
  · constructor <;> norm_num [normBoundary, normalize_easing, Real.cos_zero, Real.sin_zero, Real.cos_pi_div_two, Real.sin_pi_div_two, Real.cos_pi, Real.sqrt_one, Real.sqrt_zero, Real.rpow_zero, EasingFunctions.ease_out_quart]
  · constructor <;> norm_num [normBoundary, normalize_easing, Real.cos_zero, Real.sin_zero, Real.cos_pi_div_two, Real.sin_pi_div_two, Real.cos_pi, Real.sqrt_one, Real.sqrt_zero, Real.rpow_zero, EasingFunctions.ease_in_out_quart]
  · constructor <;> norm_num [normBoundary, normalize_easing, Real.cos_zero, Real.sin_zero, Real.cos_pi_div_two, Real.sin_pi_div_two, Real.cos_pi, Real.sqrt_one, Real.sqrt_zero, Real.rpow_zero, EasingFunctions.ease_in_quint]
  · constructor <;> norm_num [normBoundary, normalize_easing, Real.cos_zero, Real.sin_zero, Real.cos_pi_div_two, Real.sin_pi_div_two, Real.cos_pi, Real.sqrt_one, Real.sqrt_zero, Real.rpow_zero, EasingFunctions.ease_out_quint]
  · constructor <;> norm_num [normBoundary, normalize_easing, Real.cos_zero, Real.sin_zero, Real.cos_pi_div_two, Real.sin_pi_div_two, Real.cos_pi, Real.sqrt_one, Real.sqrt_zero, Real.rpow_zero, EasingFunctions.ease_in_out_quint]
  · constructor <;> norm_num [normBoundary, normalize_easing, Real.cos_zero, Real.sin_zero, Real.cos_pi_div_two, Real.sin_pi_div_two, Real.cos_pi, Real.sqrt_one, Real.sqrt_zero, Real.rpow_zero, EasingFunctions.ease_in_sine]
  · constructor <;> norm_num [normBoundary, normalize_easing, Real.cos_zero, Real.sin_zero, Real.cos_pi_div_two, Real.sin_pi_div_two, Real.cos_pi, Real.sqrt_one, Real.sqrt_zero, Real.rpow_zero, EasingFunctions.ease_out_sine]
  · constructor <;> norm_num [normBoundary, normalize_easing, Real.cos_zero, Real.sin_zero, Real.cos_pi_div_two, Real.sin_pi_div_two, Real.cos_pi, Real.sqrt_one, Real.sqrt_zero, Real.rpow_zero, EasingFunctions.ease_in_out_sine]
  · constructor <;> norm_num [normBoundary, normalize_easing, Real.cos_zero, Real.sin_zero, Real.cos_pi_div_two, Real.sin_pi_div_two, Real.cos_pi, Real.sqrt_one, Real.sqrt_zero, Real.rpow_zero, EasingFunctions.ease_in_circ]
  · constructor <;> norm_num [normBoundary, normalize_easing, Real.cos_zero, Real.sin_zero, Real.cos_pi_div_two, Real.sin_pi_div_two, Real.cos_pi, Real.sqrt_one, Real.sqrt_zero, Real.rpow_zero, EasingFunctions.ease_out_circ]
  · constructor <;> norm_num [normBoundary, normalize_easing, Real.cos_zero, Real.sin_zero, Real.cos_pi_div_two, Real.sin_pi_div_two, Real.cos_pi, Real.sqrt_one, Real.sqrt_zero, Real.rpow_zero, EasingFunctions.ease_in_out_circ]
  · constructor <;> norm_num [normBoundary, normalize_easing, Real.cos_zero, Real.sin_zero, Real.cos_pi_div_two, Real.sin_pi_div_two, Real.cos_pi, Real.sqrt_one, Real.sqrt_zero, Real.rpow_zero, EasingFunctions.ease_in_elastic]
  · constructor <;> norm_num [normBoundary, normalize_easing, Real.cos_zero, Real.sin_zero, Real.cos_pi_div_two, Real.sin_pi_div_two, Real.cos_pi, Real.sqrt_one, Real.sqrt_zero, Real.rpow_zero, EasingFunctions.ease_out_elastic]
  · constructor <;> norm_num [normBoundary, normalize_easing, Real.cos_zero, Real.sin_zero, Real.cos_pi_div_two, Real.sin_pi_div_two, Real.cos_pi, Real.sqrt_one, Real.sqrt_zero, Real.rpow_zero, EasingFunctions.ease_in_out_elastic]
  · norm_num [normalize_easing, EasingFunctions.ease_in_expo, two_rpow_neg_ten]
  · norm_num [normalize_easing, EasingFunctions.ease_in_expo, Real.rpow_zero]
  · norm_num [normalize_easing, EasingFunctions.ease_out_expo, Real.rpow_zero]
  · norm_num [normalize_easing, EasingFunctions.ease_out_expo, two_rpow_neg_ten]
  · norm_num [normalize_easing, EasingFunctions.ease_in_out_expo, two_rpow_neg_ten]
  · norm_num [normalize_easing, EasingFunctions.ease_in_out_expo, two_rpow_neg_ten]

end PygameUtils
